import Mathlib

/-!
# Verification of the BRIX simulation core

Shallow embedding of the BRIX brick-breaker game's simulation engine:
entity model (ball, paddle, brick), collision engine, level model with
auto-fit and validation, and the playing-state tick of the game controller.

Conventions of the embedding:
* Go `float64` values are modelled as real numbers (`ℝ`); `math.Sqrt` and
  `math.Hypot` become `Real.sqrt`.  Go `int` becomes `ℤ`.
* The repository ships several historical snapshots of some files; the
  embedding follows the snapshot the claims point at: the paddle with
  inertia (`entities/paddle.go`), the brick with smart row centering
  (second snapshot of `entities/brick.go`), the collision system with the
  75 % horizontal cap (`physics/collision.go`), the game controller with
  pause/level-complete states and the score baseline (second snapshot of
  `game/game.go`), and the grid-format level loader with integer
  arithmetic (first snapshot of the levels package).
* File input and JSON parsing are out of scope; level loading is modelled
  on an already-parsed `Level` value, and the game controller's level
  lookup is a parameter.
-/

namespace Brix

noncomputable section

/-! ## Constants (entities package) -/

/-- `entities.ScreenWidth` (paddle.go). -/
def ScreenWidth : ℝ := 720

/-- `entities.BallRadius` (ball.go). -/
def BallRadius : ℝ := 10

/-- `entities.HUDHeight` (ball.go); integer, used in brick pixel layout. -/
def HUDHeight : ℤ := 80

/-- `entities.PaddleWidth`. -/
def PaddleWidth : ℝ := 120

/-- `entities.PaddleHeight`. -/
def PaddleHeight : ℝ := 20

/-- `entities.PaddleY`. -/
def PaddleY : ℝ := 700

/-- `entities.PaddleAccel`. -/
def PaddleAccel : ℝ := 2500

/-- `entities.PaddleFriction`. -/
def PaddleFriction : ℝ := 2400

/-- `entities.PaddleMaxSpeed`. -/
def PaddleMaxSpeed : ℝ := 450

/-- `entities.Tick`, the fixed timestep (1/60 s). -/
def Tick : ℝ := 1 / 60

/-- `entities.BrickCols` (brick.go). -/
def BrickCols : ℤ := 12

/-- `entities.BrickRows` (brick.go). -/
def BrickRows : ℤ := 10

/-- Modelled from the spec: the gameplay-area constants
(`entities.GameAreaLeft` / `Right` / `Top` / `Bottom` / `Width`) are referenced
by `physics/collision.go`, the levels package and the renderer, but the
entities source file declaring them is missing from the split sources.  The
level loader's comment fixes the playfield at 700×500 pixels, the screen is
720 wide (so a 10-px border on each side) and the HUD occupies the top 80
pixels. -/
def GameAreaWidth : ℤ := 700

/-- Modelled from the spec: left edge of the gameplay area (see
`GameAreaWidth`). -/
def GameAreaLeft : ℤ := 10

/-- Modelled from the spec: right edge of the gameplay area (see
`GameAreaWidth`). -/
def GameAreaRight : ℤ := 710

/-- Modelled from the spec: top edge of the gameplay area, the HUD line (see
`GameAreaWidth`). -/
def GameAreaTop : ℤ := 80

/-- Modelled from the spec: bottom edge of the gameplay area, 500 px below the
top (see `GameAreaWidth`). -/
def GameAreaBottom : ℤ := 580

/-! ## Bricks (entities/brick.go, smart-centering snapshot) -/

/-- `entities.Brick`: grid position, remaining hits, active flag and the
level-specific sizing and field bounds used for row centering.  The
render-only brick-type tag is omitted (it never feeds back into the
simulation). -/
structure Brick where
  x : ℤ
  y : ℤ
  hits : ℤ
  active : Bool
  width : ℤ
  height : ℤ
  spacingX : ℤ
  spacingY : ℤ
  fieldMinX : ℤ
  fieldMaxX : ℤ

/-- `Brick.Hit`: decrement `hits` if active; deactivate and report
destruction when the count reaches zero; no-op returning `false` when the
brick is already inactive.  Returns the updated brick together with the
`destroyed` flag. -/
def Brick.hit (b : Brick) : Brick × Bool :=
  if !b.active then (b, false)
  else
    let hits := b.hits - 1
    if hits ≤ 0 then ({ b with hits := hits, active := false }, true)
    else ({ b with hits := hits }, false)

/-- An axis-aligned bounding box, in the `(left, top, right, bottom)` order
used throughout the Go sources. -/
structure Bounds where
  left : ℝ
  top : ℝ
  right : ℝ
  bottom : ℝ

/-- `Brick.GetScreenPosition` (smart-centering snapshot): center the row's
field inside the 720-px screen using the brick's recorded field bounds and
stack rows below the HUD. -/
def Brick.screenPos (b : Brick) : ℝ × ℝ :=
  let fieldWidthInBricks := b.fieldMaxX - b.fieldMinX + 1
  let totalFieldWidth : ℝ :=
    ((fieldWidthInBricks * b.width + (fieldWidthInBricks - 1) * b.spacingX : ℤ) : ℝ)
  let fieldStartX := (720 - totalFieldWidth) / 2
  let brickOffsetFromFieldStart : ℝ :=
    (((b.x - b.fieldMinX) * (b.width + b.spacingX) : ℤ) : ℝ)
  (fieldStartX + brickOffsetFromFieldStart,
   ((HUDHeight + b.y * (b.height + b.spacingY) : ℤ) : ℝ))

/-- `Brick.GetBounds`. -/
def Brick.bounds (b : Brick) : Bounds :=
  { left := b.screenPos.1
    top := b.screenPos.2
    right := b.screenPos.1 + (b.width : ℝ)
    bottom := b.screenPos.2 + (b.height : ℝ) }

/-! ## Ball (entities/ball.go, speed-carrying snapshot) -/

/-- `entities.Ball`: center position, velocity and the configured speed
stored by `NewBallWithSpeed`. -/
structure Ball where
  x : ℝ
  y : ℝ
  vx : ℝ
  vy : ℝ
  speed : ℝ

/-- `Ball.Update`: integrate position by velocity over one tick. -/
def Ball.update (b : Ball) : Ball :=
  { b with x := b.x + b.vx * Tick, y := b.y + b.vy * Tick }

/-- `Ball.GetBounds`: the ball's bounding box, center ± radius. -/
def Ball.bounds (b : Ball) : Bounds :=
  { left := b.x - BallRadius
    top := b.y - BallRadius
    right := b.x + BallRadius
    bottom := b.y + BallRadius }

/-- `Ball.IsLost`: the ball is lost once its center is more than 100 px
past `ScreenWidth` — the screen *width* constant, not the gameplay-area
bottom. -/
def Ball.isLost (b : Ball) : Prop := b.y > ScreenWidth + 100

/-! ## Paddle (entities/paddle.go, inertia snapshot) -/

/-- `entities.Paddle`: center position and horizontal velocity. -/
structure Paddle where
  x : ℝ
  vx : ℝ

/-- `Paddle.GetBounds`. -/
def Paddle.bounds (p : Paddle) : Bounds :=
  { left := p.x - PaddleWidth / 2
    top := PaddleY
    right := p.x + PaddleWidth / 2
    bottom := PaddleY + PaddleHeight }

/-- The edge-clamping step of `Paddle.Update` (its step 5): stop at either
screen edge with the velocity zeroed.  The source's second conditional
tests the already-clamped position and the left clamp value never exceeds
the right threshold, so the nested conditional is equivalent. -/
def clampToScreen (x vx : ℝ) : Paddle :=
  if x < PaddleWidth / 2 then { x := PaddleWidth / 2, vx := 0 }
  else if x > ScreenWidth - PaddleWidth / 2 then
    { x := ScreenWidth - PaddleWidth / 2, vx := 0 }
  else { x := x, vx := vx }

/-- `Paddle.Update` with the key state abstracted into two booleans
(`left` = Left or A held, `right` = Right or D held).  In the source the
two key checks assign `ax` in sequence, so a held right key wins over a held
left key; the friction branch is special-cased so one tick of friction
cannot push the velocity through zero; after integrating, the position is
clamped to the screen edges (half a paddle width in from each side) with the
velocity zeroed on contact.  The source's second clamp tests the
already-clamped `x`, and the left clamp value never exceeds the right
threshold, so the nested conditional below is equivalent. -/
def Paddle.update (p : Paddle) (left right : Bool) : Paddle :=
  let ax : ℝ := if right then PaddleAccel else if left then -PaddleAccel else 0
  let ax : ℝ :=
    if ax = 0 then
      if p.vx > 0 then
        if p.vx + -PaddleFriction * Tick < 0 then -p.vx / Tick else -PaddleFriction
      else if p.vx < 0 then
        if p.vx + PaddleFriction * Tick > 0 then -p.vx / Tick else PaddleFriction
      else 0
    else ax
  let vx := p.vx + ax * Tick
  let vx := if vx > PaddleMaxSpeed then PaddleMaxSpeed else vx
  let vx := if vx < -PaddleMaxSpeed then -PaddleMaxSpeed else vx
  let x := p.x + vx * Tick
  clampToScreen x vx

/-! ## Collision engine (physics/collision.go) -/

/-- The two sequential clamping conditionals that `CheckPaddleCollision`
applies to the paddle-center offset, bounding it to `[-1, 1]`. -/
def clampOffset (offset : ℝ) : ℝ :=
  let o := if offset < -1 then -1 else offset
  if o > 1 then 1 else o

/-- The direction computation of `CheckPaddleCollision` for a given speed
magnitude (`collision.go` lines 43–58): cap the horizontal component at
75 % of the speed and derive the upward vertical component from it; if
that vertical component would fall below 50 % of the speed, force it to
50 % and recompute the horizontal part with `math.Copysign` (modelled by
the sign conditional). -/
def bounceFromSpeed (speed offset0 : ℝ) : ℝ × ℝ :=
  let offset := clampOffset offset0
  let maxHorizontal := speed * 0.75
  let newVX := offset * maxHorizontal
  let minVertical := speed * 0.5
  let verticalFromHorizontal := Real.sqrt (speed * speed - newVX * newVX)
  if verticalFromHorizontal < minVertical then
    let newVY := -minVertical
    (if newVX < 0 then -Real.sqrt (speed * speed - newVY * newVY)
     else Real.sqrt (speed * speed - newVY * newVY),
     newVY)
  else (newVX, -verticalFromHorizontal)

/-- The velocity computation of `CheckPaddleCollision` on an overlap
(`collision.go` lines 28–58), factored out of the state plumbing: the
current speed magnitude (`math.Hypot`, with a 240 fallback when the speed
is exactly zero) steers `bounceFromSpeed`. -/
def paddleBounceVel (vx vy offset0 : ℝ) : ℝ × ℝ :=
  let speed := Real.sqrt (vx * vx + vy * vy)
  let speed := if speed = 0 then 240 else speed
  bounceFromSpeed speed offset0

/-- `CheckPaddleCollision`: skipped while the ball moves upward
(`vy ≤ 0`); on an AABB overlap, replace the velocity by the bounce
velocity derived from the ball's offset from the paddle center and award
10 points. -/
def checkPaddleCollision (ball : Ball) (paddle : Paddle) (score : ℤ) :
    Ball × ℤ :=
  if ball.vy ≤ 0 then (ball, score)
  else
    let bb := ball.bounds
    let pb := paddle.bounds
    if bb.bottom ≥ pb.top ∧ bb.top ≤ pb.bottom ∧
        bb.right ≥ pb.left ∧ bb.left ≤ pb.right then
      let v := paddleBounceVel ball.vx ball.vy
        ((ball.x - paddle.x) / (PaddleWidth / 2))
      ({ ball with vx := v.1, vy := v.2 }, score + 10)
    else (ball, score)

/-- The lives-scaled point table of `CheckBrickCollisions` (the Go
`switch lives`): 20 points at three lives, 10 at two, 5 at one, 5 in the
fallback arm. -/
def brickPoints (lives : ℤ) : ℤ :=
  if lives = 3 then 20 else if lives = 2 then 10 else if lives = 1 then 5 else 5

/-- The score increment applied by `CheckBrickCollisions` for one processed
hit: the full lives-scaled points on destruction, integer half of them on a
mere damage hit.  (The operands are nonnegative, so Lean's `ℤ` division
agrees with Go's truncating division.) -/
def brickAward (lives : ℤ) (destroyed : Bool) : ℤ :=
  if destroyed then brickPoints lives else brickPoints lives / 2

/-- `resolveBrickCollision`: find which of the four brick edges the ball
center is nearest to and reverse the corresponding velocity axis
(left/right edges reverse X, top/bottom edges reverse Y). -/
def resolveBrickCollision (ball : Ball)
    (brickLeft brickTop brickRight brickBottom : ℝ) : Ball :=
  let distLeft := ball.x - brickLeft
  let distRight := brickRight - ball.x
  let distTop := ball.y - brickTop
  let distBottom := brickBottom - ball.y
  let minDist := distLeft
  let minDist := if distRight < minDist then distRight else minDist
  let minDist := if distTop < minDist then distTop else minDist
  let minDist := if distBottom < minDist then distBottom else minDist
  if minDist = distLeft ∨ minDist = distRight then
    { ball with vx := -ball.vx }
  else
    { ball with vy := -ball.vy }

/-- The AABB overlap test of `CheckBrickCollisions` (ball box against brick
box), in the source's condition order. -/
def brickOverlap (bb c : Bounds) : Prop :=
  bb.right ≥ c.left ∧ bb.left ≤ c.right ∧ bb.bottom ≥ c.top ∧ bb.top ≤ c.bottom

instance (bb c : Bounds) : Decidable (brickOverlap bb c) := by
  unfold brickOverlap; infer_instance

/-- The loop of `CheckBrickCollisions`: scan the bricks in list order,
skipping inactive ones; on the first overlap, hit the brick, award the
lives-scaled points, resolve the bounce and stop (the `break`), leaving
every remaining brick untouched.  `bb` is the ball's bounding box, computed
once before the loop (the ball's position never changes inside it). -/
def brickScan (ball : Ball) (bb : Bounds) (lives : ℤ) :
    List Brick → ℤ → Ball × List Brick × ℤ
  | [], score => (ball, [], score)
  | brick :: rest, score =>
    if !brick.active then
      let r := brickScan ball bb lives rest score
      (r.1, brick :: r.2.1, r.2.2)
    else
      let c := brick.bounds
      if brickOverlap bb c then
        let hr := brick.hit
        (resolveBrickCollision ball c.left c.top c.right c.bottom,
         hr.1 :: rest, score + brickAward lives hr.2)
      else
        let r := brickScan ball bb lives rest score
        (r.1, brick :: r.2.1, r.2.2)

/-- `CheckBrickCollisions`. -/
def checkBrickCollisions (ball : Ball) (bricks : List Brick)
    (score lives : ℤ) : Ball × List Brick × ℤ :=
  brickScan ball ball.bounds lives bricks score

/-- `CheckWallCollisions`: reverse X at the left/right gameplay boundary
while still moving outward, reverse Y at the top boundary.  The bounding
box is computed once at entry (as in the source), while the velocity tests
see any reversal already applied. -/
def checkWallCollisions (ball : Ball) : Ball :=
  let bb := ball.bounds
  let ball :=
    if bb.left ≤ (GameAreaLeft : ℝ) ∧ ball.vx < 0 then
      { ball with vx := -ball.vx } else ball
  let ball :=
    if bb.right ≥ (GameAreaRight : ℝ) ∧ ball.vx > 0 then
      { ball with vx := -ball.vx } else ball
  if bb.top ≤ (GameAreaTop : ℝ) ∧ ball.vy < 0 then
    { ball with vy := -ball.vy } else ball

/-! ## Level model (levels package, grid-format snapshot) -/

/-- `entities.LevelBrick`: one brick descriptor from level data. -/
structure LevelBrick where
  x : ℤ
  y : ℤ
  brickType : String
  hits : ℤ
deriving DecidableEq

/-- `levels.Level`: name, brick sizing/spacing, ball speed and the ordered
brick list (grid format). -/
structure Level where
  name : String
  brickWidth : ℤ
  brickHeight : ℤ
  brickSpacingX : ℤ
  brickSpacingY : ℤ
  ballSpeed : ℝ
  bricks : List LevelBrick

/-- The minimum brick column of a level, seeded with the first brick's
column and folded over the whole list, exactly as the Go loops in
`AutoFitLevel` and `ValidateLevel` compute it (0 for an empty list, which
both callers guard against). -/
def levelMinX (lvl : Level) : ℤ :=
  match lvl.bricks with
  | [] => 0
  | b :: _ => lvl.bricks.foldl (fun m lb => if lb.x < m then lb.x else m) b.x

/-- The maximum brick column of a level (see `levelMinX`). -/
def levelMaxX (lvl : Level) : ℤ :=
  match lvl.bricks with
  | [] => 0
  | b :: _ => lvl.bricks.foldl (fun m lb => if m < lb.x then lb.x else m) b.x

/-- The minimum brick row of a level (see `levelMinX`). -/
def levelMinY (lvl : Level) : ℤ :=
  match lvl.bricks with
  | [] => 0
  | b :: _ => lvl.bricks.foldl (fun m lb => if lb.y < m then lb.y else m) b.y

/-- The maximum brick row of a level (see `levelMinX`). -/
def levelMaxY (lvl : Level) : ℤ :=
  match lvl.bricks with
  | [] => 0
  | b :: _ => lvl.bricks.foldl (fun m lb => if m < lb.y then lb.y else m) b.y

/-- Number of occupied columns, `maxX - minX + 1`. -/
def levelCols (lvl : Level) : ℤ := levelMaxX lvl - levelMinX lvl + 1

/-- Pixel width of the brick field,
`cols * brickWidth + (cols - 1) * spacingX`. -/
def levelFieldWidth (lvl : Level) : ℤ :=
  levelCols lvl * lvl.brickWidth + (levelCols lvl - 1) * lvl.brickSpacingX

/-- The per-brick loop of `ValidateLevel`: grid coordinates must lie in the
12×10 grid and hit counts must be positive; the first offender aborts. -/
def checkBricks : List LevelBrick → Except String Unit
  | [] => .ok ()
  | b :: rest =>
    if b.x < 0 ∨ b.x ≥ BrickCols then .error "brick has invalid X position"
    else if b.y < 0 ∨ b.y ≥ BrickRows then .error "brick has invalid Y position"
    else if b.hits ≤ 0 then .error "brick must have positive hits"
    else checkBricks rest

/-- `ValidateLevel` (grid-format snapshot, integer arithmetic): non-empty
name, at least one brick, per-brick grid/hits checks, then pixel-exact
bounds validation of the whole field against the gameplay area.  All
divisions act on nonnegative operands, where Lean's `ℤ` division agrees
with Go's. -/
def validateLevel (lvl : Level) : Except String Unit :=
  if lvl.name = "" then .error "level must have a name"
  else if lvl.bricks = [] then .error "level must have at least one brick"
  else
    match checkBricks lvl.bricks with
    | .error e => .error e
    | .ok _ =>
      let fieldWidthPx := levelFieldWidth lvl
      if fieldWidthPx > GameAreaWidth then
        .error "brick field width exceeds gameplay width"
      else
        let fieldStartX := GameAreaLeft + (GameAreaWidth - fieldWidthPx) / 2
        let fieldEndX := fieldStartX + fieldWidthPx
        if fieldStartX < GameAreaLeft ∨ fieldEndX > GameAreaRight then
          .error "brick field would render outside horizontal gameplay bounds"
        else
          let verticalStride := lvl.brickHeight + lvl.brickSpacingY
          let topMostY := GameAreaTop - 50 + levelMinY lvl * verticalStride
          let bottomMostY :=
            GameAreaTop - 50 + levelMaxY lvl * verticalStride + lvl.brickHeight
          if topMostY < GameAreaTop then
            .error "top bricks would render above gameplay area"
          else if bottomMostY > GameAreaBottom then
            .error "bottom bricks would render below gameplay area"
          else .ok ()

/-- Go's `int(x)` conversion on a `float64`: truncation toward zero,
modelled on exact rationals. -/
def truncQ (q : ℚ) : ℤ := if q < 0 then -Int.floor (-q) else Int.floor q

/-- `AutoFitLevel` (grid-format snapshot): if the brick field is wider than
the gameplay area, shrink `brickWidth` to `available / cols` (integer
division) and scale `brickHeight` by the original height/width ratio
(`float64` ratio, truncated back to `int`); otherwise leave the level
untouched.  Degenerate inputs (no bricks, non-positive width, nothing
available) are left unchanged for validation to reject. -/
def autoFitLevel (lvl : Level) : Level :=
  if lvl.bricks = [] ∨ lvl.brickWidth ≤ 0 then lvl
  else
    let cols := levelCols lvl
    if cols ≤ 0 then lvl
    else
      let currentWidth := cols * lvl.brickWidth + (cols - 1) * lvl.brickSpacingX
      if currentWidth ≤ GameAreaWidth then lvl
      else
        let available := GameAreaWidth - (cols - 1) * lvl.brickSpacingX
        if available ≤ 0 then lvl
        else
          let newWidth := available / cols
          if newWidth ≤ 0 then lvl
          else
            { lvl with
              brickWidth := newWidth
              brickHeight :=
                truncQ ((newWidth : ℚ) *
                  ((lvl.brickHeight : ℚ) / (lvl.brickWidth : ℚ))) }

/-- `levels.LoadLevel` on an already-parsed level (file reading and JSON
decoding abstracted away): auto-fit, then validate; a validation failure is
returned as the load error. -/
def loadLevel (parsed : Level) : Except String Level :=
  let lvl := autoFitLevel parsed
  match validateLevel lvl with
  | .error e => .error e
  | .ok _ => .ok lvl

/-! ## Game controller (game.go, second snapshot) -/

/-- `game.GameState`. -/
inductive GameState where
  | start
  | playing
  | paused
  | levelComplete
  | waitingToContinue
  | gameOver
deriving DecidableEq

/-- The per-tick key intents consumed by `updatePlaying` and the entity
updates: `left` = Left or A held, `right` = Right or D held, plus the
Space and Enter keys used for pausing. -/
structure Input where
  left : Bool
  right : Bool
  space : Bool
  enter : Bool

/-- `game.Game`: the simulation-relevant fields of the game world. -/
structure Game where
  paddle : Paddle
  ball : Ball
  bricks : List Brick
  level : Level
  currentLevel : ℤ
  score : ℤ
  lives : ℤ
  state : GameState

/-- The `rowMin` map of `Game.loadLevel`: minimum occupied column of row
`y` (Go map zero value 0 when the row is empty). -/
def rowBrickMinX (bs : List LevelBrick) (y : ℤ) : ℤ :=
  match bs.filter (fun lb => lb.y = y) with
  | [] => 0
  | c :: cs => (c :: cs).foldl (fun m lb => if lb.x < m then lb.x else m) c.x

/-- The `rowMax` map of `Game.loadLevel` (see `rowBrickMinX`). -/
def rowBrickMaxX (bs : List LevelBrick) (y : ℤ) : ℤ :=
  match bs.filter (fun lb => lb.y = y) with
  | [] => 0
  | c :: cs => (c :: cs).foldl (fun m lb => if m < lb.x then lb.x else m) c.x

/-- Brick construction of `Game.loadLevel`: each level brick becomes an
active entity with the level's sizing and its row's min/max columns as
field bounds (`NewBrickFromLevelWithBounds`). -/
def mkLevelBricks (lvl : Level) : List Brick :=
  lvl.bricks.map (fun lb =>
    { x := lb.x
      y := lb.y
      hits := lb.hits
      active := true
      width := lvl.brickWidth
      height := lvl.brickHeight
      spacingX := lvl.brickSpacingX
      spacingY := lvl.brickSpacingY
      fieldMinX := rowBrickMinX lvl.bricks lb.y
      fieldMaxX := rowBrickMaxX lvl.bricks lb.y })

/-- `Game.loadLevel` with the level source abstracted into `lookup`
(`levels.LoadLevel` reads and validates a file): on failure the error
propagates and the game is untouched; on success the score is raised to
the `levelNum * 1000` baseline if below it, and the level's bricks are
instantiated with row-local centering bounds. -/
def gameLoadLevel (lookup : ℤ → Option Level) (g : Game) (levelNum : ℤ) :
    Option Game :=
  match lookup levelNum with
  | none => none
  | some level =>
    let baseline := levelNum * 1000
    let score := if g.score < baseline then baseline else g.score
    some { g with score := score, level := level,
                  bricks := mkLevelBricks level }

instance (b : Ball) : Decidable b.isLost := by
  unfold Ball.isLost; infer_instance

/-- The physics portion of `updatePlaying`: update the paddle and the ball,
then run the collision engine in its fixed order (paddle → bricks →
walls). -/
def physicsPhase (inp : Input) (g : Game) : Game :=
  let paddle := g.paddle.update inp.left inp.right
  let ball := g.ball.update
  let pr := checkPaddleCollision ball paddle g.score
  let br := checkBrickCollisions pr.1 g.bricks pr.2 g.lives
  let ball2 := checkWallCollisions br.1
  { g with paddle := paddle, ball := ball2, bricks := br.2.1, score := br.2.2 }

/-- `Game.updatePlaying`: a pause intent (Space or Enter) pre-empts the
whole tick; otherwise run the physics phase, then (1) if the ball is lost,
decrement `lives` and move to `gameOver` when they are exhausted, else to
`waitingToContinue`; then (2) if no brick remains active, move to
`levelComplete`. -/
def updatePlaying (inp : Input) (g : Game) : Game :=
  if inp.space || inp.enter then { g with state := .paused }
  else
    let g1 := physicsPhase inp g
    let g2 :=
      if g1.ball.isLost then
        let lives := g1.lives - 1
        if lives ≤ 0 then { g1 with lives := lives, state := .gameOver }
        else { g1 with lives := lives, state := .waitingToContinue }
      else g1
    let activeBricks := g2.bricks.countP (fun b => b.active)
    if activeBricks = 0 then { g2 with state := .levelComplete } else g2

/-! ## Concrete demonstration values used by witnesses -/

/-- A small one-brick grid level. -/
def demoLevel : Level :=
  { name := "Demo", brickWidth := 100, brickHeight := 40, brickSpacingX := 0,
    brickSpacingY := 0, ballSpeed := 240, bricks := [⟨0, 1, "red", 1⟩] }

/-- A three-column level whose raw field width (3 × 300 px) exceeds the
700-px gameplay width, triggering the auto-fit. -/
def demoOverflowLevel : Level :=
  { name := "Wide", brickWidth := 300, brickHeight := 30, brickSpacingX := 0,
    brickSpacingY := 30, ballSpeed := 240,
    bricks := [⟨0, 1, "red", 1⟩, ⟨1, 1, "red", 1⟩, ⟨2, 1, "red", 1⟩] }

/-- A playing-state game with three lives, one active brick and a ball far
below the play field, about to be detected as lost. -/
def demoGame : Game :=
  { paddle := ⟨360, 0⟩
    ball := ⟨360, 1000, 0, 240, 240⟩
    bricks := [Brick.mk 0 0 1 true 100 40 0 0 0 0]
    level := demoLevel
    currentLevel := 1
    score := 0
    lives := 3
    state := .playing }

/-- The game produced by loading `demoLevel` as level 2 over `demoGame`. -/
def demoGameLoaded : Game :=
  { demoGame with score := 2000, level := demoLevel,
                  bricks := mkLevelBricks demoLevel }

/-! ## Claim C1: brick hit behaviour -/

/-- C1.  `Hit()` on an active brick with one hit left destroys it (returns
`true`, clears `active`); on an active brick with more hits it decrements
the count, stays active and returns `false`; on an inactive brick it is a
no-op returning `false`. -/
theorem brick_hit_cases (b : Brick) :
    (b.active = true → b.hits = 1 →
      (b.hit.1.active = false ∧ b.hit.2 = true)) ∧
    (b.active = true → 1 < b.hits →
      (b.hit.1.hits = b.hits - 1 ∧ b.hit.1.active = true ∧ b.hit.2 = false)) ∧
    (b.active = false → (b.hit.1 = b ∧ b.hit.2 = false)) := by
  unfold Brick.hit
  refine ⟨?_, ?_, ?_⟩
  · intro ha h1
    simp [ha, h1]
  · intro ha h1
    have : ¬ b.hits - 1 ≤ 0 := by omega
    simp [ha, this]
  · intro ha
    simp [ha]

/-- Witness for C1: a two-hit active brick is damaged to one remaining hit,
stays active, and the call reports it was not destroyed. -/
theorem brick_hit_cases_witness :
    ((Brick.mk 0 0 2 true 50 20 4 4 0 0).hit.1.hits = 2 - 1 ∧
     (Brick.mk 0 0 2 true 50 20 4 4 0 0).hit.1.active = true ∧
     (Brick.mk 0 0 2 true 50 20 4 4 0 0).hit.2 = false) :=
  (brick_hit_cases (Brick.mk 0 0 2 true 50 20 4 4 0 0)).2.1 rfl (by norm_num)

/-! ## Claim C3: the paddle bounce preserves speed and points upward -/

lemma clampOffset_bounds (o : ℝ) : -1 ≤ clampOffset o ∧ clampOffset o ≤ 1 := by
  simp only [clampOffset]
  split_ifs <;> constructor <;> linarith

lemma bounceFromSpeed_spec (s o : ℝ) (hs : 0 < s) :
    (bounceFromSpeed s o).1 * (bounceFromSpeed s o).1 +
        (bounceFromSpeed s o).2 * (bounceFromSpeed s o).2 = s * s ∧
    (bounceFromSpeed s o).2 < 0 ∧
    s * 0.5 ≤ |(bounceFromSpeed s o).2| := by
  obtain ⟨ho1, ho2⟩ := clampOffset_bounds o
  have hc2 : clampOffset o * clampOffset o ≤ 1 := by nlinarith
  have hw2 : clampOffset o * (s * 0.75) * (clampOffset o * (s * 0.75)) ≤
      0.5625 * (s * s) := by
    nlinarith [mul_nonneg (sub_nonneg.2 hc2) (mul_self_nonneg s)]
  have hinner_lb : 0.25 * (s * s) ≤
      s * s - clampOffset o * (s * 0.75) * (clampOffset o * (s * 0.75)) := by
    nlinarith [mul_self_nonneg s]
  have hinner_pos :
      0 < s * s - clampOffset o * (s * 0.75) * (clampOffset o * (s * 0.75)) := by
    nlinarith [mul_pos hs hs]
  have hvfh_lb : s * 0.5 ≤
      Real.sqrt (s * s - clampOffset o * (s * 0.75) * (clampOffset o * (s * 0.75))) := by
    have h1 := Real.sqrt_le_sqrt hinner_lb
    have h2 : Real.sqrt (0.25 * (s * s)) = 0.5 * s := by
      rw [show (0.25 : ℝ) * (s * s) = 0.5 * s * (0.5 * s) by ring]
      exact Real.sqrt_mul_self (by linarith)
    linarith
  have hvfh_pos :
      0 < Real.sqrt (s * s - clampOffset o * (s * 0.75) * (clampOffset o * (s * 0.75))) :=
    Real.sqrt_pos.2 hinner_pos
  have hvfh_sq := Real.mul_self_sqrt hinner_pos.le
  have hkey : bounceFromSpeed s o =
      (clampOffset o * (s * 0.75),
       -Real.sqrt (s * s - clampOffset o * (s * 0.75) * (clampOffset o * (s * 0.75)))) := by
    simp only [bounceFromSpeed]
    rw [if_neg (not_lt.2 hvfh_lb)]
  rw [hkey]
  refine ⟨by nlinarith [hvfh_sq], by exact neg_neg_of_pos hvfh_pos, ?_⟩
  rw [show |((clampOffset o * (s * 0.75),
      -Real.sqrt (s * s - clampOffset o * (s * 0.75) *
        (clampOffset o * (s * 0.75))))).2| =
      Real.sqrt (s * s - clampOffset o * (s * 0.75) *
        (clampOffset o * (s * 0.75))) from by
    rw [abs_of_nonpos (neg_nonpos.mpr hvfh_pos.le)]; exact neg_neg _]
  exact hvfh_lb

lemma paddleBounceVel_spec (vx vy o : ℝ) (hvy : vy ≠ 0) :
    (paddleBounceVel vx vy o).1 * (paddleBounceVel vx vy o).1 +
        (paddleBounceVel vx vy o).2 * (paddleBounceVel vx vy o).2 =
      vx * vx + vy * vy ∧
    (paddleBounceVel vx vy o).2 < 0 ∧
    Real.sqrt (vx * vx + vy * vy) / 2 ≤ |(paddleBounceVel vx vy o).2| := by
  have hpos : 0 < vx * vx + vy * vy := by
    have h1 := mul_self_nonneg vx
    have h2 := mul_self_pos.mpr hvy
    linarith
  have hs : 0 < Real.sqrt (vx * vx + vy * vy) := Real.sqrt_pos.2 hpos
  have hred : paddleBounceVel vx vy o =
      bounceFromSpeed (Real.sqrt (vx * vx + vy * vy)) o := by
    simp only [paddleBounceVel]
    rw [if_neg hs.ne']
  obtain ⟨h1, h2, h3⟩ := bounceFromSpeed_spec (Real.sqrt (vx * vx + vy * vy)) o hs
  have hss := Real.mul_self_sqrt hpos.le
  rw [hred]
  exact ⟨by rw [h1, hss], h2, by linarith⟩

/-- C3.  For every processed paddle overlap (ball moving downward), the
bounce sets a velocity whose magnitude equals the pre-bounce magnitude
`hypot(vx, vy)` exactly (in the real-arithmetic model of `float64`), and
whose vertical component is strictly negative with absolute value at least
half of that magnitude. -/
theorem paddle_bounce_speed_preserved (ball : Ball) (paddle : Paddle)
    (score : ℤ) (hvy : 0 < ball.vy)
    (hov : ball.bounds.bottom ≥ paddle.bounds.top ∧
      ball.bounds.top ≤ paddle.bounds.bottom ∧
      ball.bounds.right ≥ paddle.bounds.left ∧
      ball.bounds.left ≤ paddle.bounds.right) :
    Real.sqrt ((checkPaddleCollision ball paddle score).1.vx *
        (checkPaddleCollision ball paddle score).1.vx +
        (checkPaddleCollision ball paddle score).1.vy *
        (checkPaddleCollision ball paddle score).1.vy) =
      Real.sqrt (ball.vx * ball.vx + ball.vy * ball.vy) ∧
    (checkPaddleCollision ball paddle score).1.vy < 0 ∧
    Real.sqrt (ball.vx * ball.vx + ball.vy * ball.vy) / 2 ≤
      |(checkPaddleCollision ball paddle score).1.vy| := by
  have hkey : (checkPaddleCollision ball paddle score).1 =
      { ball with
        vx := (paddleBounceVel ball.vx ball.vy
          ((ball.x - paddle.x) / (PaddleWidth / 2))).1
        vy := (paddleBounceVel ball.vx ball.vy
          ((ball.x - paddle.x) / (PaddleWidth / 2))).2 } := by
    simp only [checkPaddleCollision]
    rw [if_neg (not_le.2 hvy), if_pos hov]
  obtain ⟨h1, h2, h3⟩ := paddleBounceVel_spec ball.vx ball.vy
    ((ball.x - paddle.x) / (PaddleWidth / 2)) (ne_of_gt hvy)
  rw [hkey]
  exact ⟨by rw [h1], h2, h3⟩

/-- Witness for C3: a centered downward ball overlapping the paddle leaves
with the same speed magnitude, an upward vertical velocity of at least half
of it. -/
theorem paddle_bounce_speed_preserved_witness :
    Real.sqrt ((checkPaddleCollision (Ball.mk 360 705 0 240 240)
        (Paddle.mk 360 0) 0).1.vx *
        (checkPaddleCollision (Ball.mk 360 705 0 240 240)
        (Paddle.mk 360 0) 0).1.vx +
        (checkPaddleCollision (Ball.mk 360 705 0 240 240)
        (Paddle.mk 360 0) 0).1.vy *
        (checkPaddleCollision (Ball.mk 360 705 0 240 240)
        (Paddle.mk 360 0) 0).1.vy) =
      Real.sqrt ((0 : ℝ) * 0 + 240 * 240) ∧
    (checkPaddleCollision (Ball.mk 360 705 0 240 240)
        (Paddle.mk 360 0) 0).1.vy < 0 ∧
    Real.sqrt ((0 : ℝ) * 0 + 240 * 240) / 2 ≤
      |(checkPaddleCollision (Ball.mk 360 705 0 240 240)
        (Paddle.mk 360 0) 0).1.vy| :=
  paddle_bounce_speed_preserved (Ball.mk 360 705 0 240 240) (Paddle.mk 360 0) 0
    (by norm_num)
    (by norm_num [Ball.bounds, Paddle.bounds, BallRadius, PaddleWidth,
      PaddleY, PaddleHeight])

/-! ## Claim C5: upward-moving balls are exempt from the paddle check -/

/-- C5.  When the ball's vertical velocity is non-positive, the
paddle-collision check changes nothing: the returned ball and score are the
inputs, regardless of any geometric overlap (the paddle itself is never
written by the check). -/
theorem paddle_collision_upward_noop (ball : Ball) (paddle : Paddle)
    (score : ℤ) (h : ball.vy ≤ 0) :
    checkPaddleCollision ball paddle score = (ball, score) := by
  unfold checkPaddleCollision
  rw [if_pos h]

/-- Witness for C5: a ball whose box overlaps the paddle but which moves
upward passes through the check untouched. -/
theorem paddle_collision_upward_noop_witness :
    checkPaddleCollision (Ball.mk 360 705 100 (-200) 240) (Paddle.mk 360 0) 5 =
      (Ball.mk 360 705 100 (-200) 240, 5) :=
  paddle_collision_upward_noop (Ball.mk 360 705 100 (-200) 240)
    (Paddle.mk 360 0) 5 (by norm_num)

/-! ## Claim C7: lives-scaled brick points -/

/-- C7.  For the lives values reachable while playing (1, 2 or 3), the
award granted by the brick-collision engine is monotone in the remaining
lives — more lives never means fewer points — and a damaging
(non-destroying) hit awards the integer half of the destroy award at the
same lives value. -/
theorem brick_award_lives_scaling (l l' : ℤ) (d : Bool)
    (h1 : 1 ≤ l) (h2 : l ≤ l') (h3 : l' ≤ 3) :
    brickAward l d ≤ brickAward l' d ∧
    2 * brickAward l false ≤ brickAward l true ∧
    brickAward l true ≤ 2 * brickAward l false + 1 := by
  have hl : l = 1 ∨ l = 2 ∨ l = 3 := by omega
  have hl' : l' = 1 ∨ l' = 2 ∨ l' = 3 := by omega
  rcases hl with h | h | h <;> rcases hl' with h' | h' | h' <;>
    subst h <;> subst h' <;> cases d <;> simp_all <;> decide

/-- Witness for C7: a destroying hit at two lives awards no more than at
three lives, and its damage award is the integer half. -/
theorem brick_award_lives_scaling_witness :
    (brickAward 2 true ≤ brickAward 3 true ∧
     2 * brickAward 2 false ≤ brickAward 2 true ∧
     brickAward 2 true ≤ 2 * brickAward 2 false + 1) :=
  brick_award_lives_scaling 2 3 true (by norm_num) (by norm_num) (by norm_num)

/-! ## Claim C6: at most one brick per collision pass -/

lemma brickScan_no_hit (ball : Ball) (bb : Bounds) (lives : ℤ) :
    ∀ (bricks : List Brick) (score : ℤ),
      (∀ b ∈ bricks, ¬ (b.active = true ∧ brickOverlap bb b.bounds)) →
      brickScan ball bb lives bricks score = (ball, bricks, score) := by
  intro bricks
  induction bricks with
  | nil => intro score _; rfl
  | cons b rest ih =>
    intro score h
    have hb := h b (List.mem_cons_self b rest)
    have hrest := fun p hp => h p (List.mem_cons_of_mem b hp)
    by_cases ha : b.active = true
    · have hov : ¬ brickOverlap bb b.bounds := fun hov => hb ⟨ha, hov⟩
      simp only [brickScan, ha, Bool.not_true, Bool.false_eq_true, if_false]
      rw [if_neg hov, ih score hrest]
    · have ha2 : b.active = false := by
        cases hact : b.active
        · rfl
        · exact absurd hact ha
      simp only [brickScan, ha2, Bool.not_false, if_true]
      rw [ih score hrest]

lemma brickScan_first_hit (ball : Ball) (bb : Bounds) (lives : ℤ) :
    ∀ (pre : List Brick) (b : Brick) (post : List Brick) (score : ℤ),
      (∀ p ∈ pre, ¬ (p.active = true ∧ brickOverlap bb p.bounds)) →
      b.active = true → brickOverlap bb b.bounds →
      brickScan ball bb lives (pre ++ b :: post) score =
        (resolveBrickCollision ball b.bounds.left b.bounds.top
          b.bounds.right b.bounds.bottom,
         pre ++ b.hit.1 :: post,
         score + brickAward lives b.hit.2) := by
  intro pre
  induction pre with
  | nil =>
    intro b post score _ ha hov
    simp only [List.nil_append, brickScan, ha, Bool.not_true,
      Bool.false_eq_true, if_false]
    rw [if_pos hov]
  | cons p pre ih =>
    intro b post score hpre ha hov
    have hp := hpre p (List.mem_cons_self p pre)
    have hrest := fun q hq => hpre q (List.mem_cons_of_mem p hq)
    by_cases hpa : p.active = true
    · have hpov : ¬ brickOverlap bb p.bounds := fun h => hp ⟨hpa, h⟩
      simp only [List.cons_append, brickScan, hpa, Bool.not_true,
        Bool.false_eq_true, if_false, List.append_eq]
      rw [if_neg hpov, ih b post score hrest ha hov]
    · have hpa2 : p.active = false := by
        cases hact : p.active
        · rfl
        · exact absurd hact hpa
      simp only [List.cons_append, brickScan, hpa2, Bool.not_false, if_true,
        List.append_eq]
      rw [ih b post score hrest ha hov]

/-- C6.  The brick-collision pass affects at most one brick.  If no active
brick overlaps the ball, the whole state passes through unchanged; if the
bricks split as `pre ++ b :: post` with nothing in `pre` qualifying and `b`
active and overlapping, then exactly `b` is hit, its points awarded and the
bounce resolved against it, while every brick of `pre` and of `post` —
even later bricks that also overlap the ball — is returned unchanged. -/
theorem brick_collision_at_most_one :
    (∀ (ball : Ball) (score lives : ℤ) (bricks : List Brick),
      (∀ b ∈ bricks, ¬ (b.active = true ∧ brickOverlap ball.bounds b.bounds)) →
      checkBrickCollisions ball bricks score lives = (ball, bricks, score)) ∧
    (∀ (ball : Ball) (score lives : ℤ) (pre : List Brick) (b : Brick)
        (post : List Brick),
      (∀ p ∈ pre, ¬ (p.active = true ∧ brickOverlap ball.bounds p.bounds)) →
      b.active = true → brickOverlap ball.bounds b.bounds →
      checkBrickCollisions ball (pre ++ b :: post) score lives =
        (resolveBrickCollision ball b.bounds.left b.bounds.top
          b.bounds.right b.bounds.bottom,
         pre ++ b.hit.1 :: post,
         score + brickAward lives b.hit.2)) := by
  constructor
  · intro ball score lives bricks h
    exact brickScan_no_hit ball ball.bounds lives bricks score h
  · intro ball score lives pre b post hpre ha hov
    exact brickScan_first_hit ball ball.bounds lives pre b post score hpre ha hov

/-- Witness for C6: with an inactive first brick and two identical active
overlapping bricks behind it, only the second brick in the list is hit —
the third keeps its hits and active flag although the ball overlaps it
too. -/
theorem brick_collision_at_most_one_witness :
    checkBrickCollisions (Ball.mk 360 100 50 50 240)
        ([Brick.mk 0 0 5 false 100 40 0 0 0 0] ++
          Brick.mk 0 0 2 true 100 40 0 0 0 0 ::
          [Brick.mk 0 0 2 true 100 40 0 0 0 0]) 7 3 =
      (resolveBrickCollision (Ball.mk 360 100 50 50 240)
        (Brick.mk 0 0 2 true 100 40 0 0 0 0).bounds.left
        (Brick.mk 0 0 2 true 100 40 0 0 0 0).bounds.top
        (Brick.mk 0 0 2 true 100 40 0 0 0 0).bounds.right
        (Brick.mk 0 0 2 true 100 40 0 0 0 0).bounds.bottom,
       [Brick.mk 0 0 5 false 100 40 0 0 0 0] ++
         (Brick.mk 0 0 2 true 100 40 0 0 0 0).hit.1 ::
         [Brick.mk 0 0 2 true 100 40 0 0 0 0],
       7 + brickAward 3 (Brick.mk 0 0 2 true 100 40 0 0 0 0).hit.2) := by
  refine brick_collision_at_most_one.2 (Ball.mk 360 100 50 50 240) 7 3
    [Brick.mk 0 0 5 false 100 40 0 0 0 0]
    (Brick.mk 0 0 2 true 100 40 0 0 0 0)
    [Brick.mk 0 0 2 true 100 40 0 0 0 0] ?_ rfl ?_
  · intro p hp
    simp only [List.mem_singleton] at hp
    subst hp
    simp
  · constructor
    · norm_num [Ball.bounds, Brick.bounds, Brick.screenPos, BallRadius,
        HUDHeight]
    constructor
    · norm_num [Ball.bounds, Brick.bounds, Brick.screenPos, BallRadius,
        HUDHeight]
    constructor
    · norm_num [Ball.bounds, Brick.bounds, Brick.screenPos, BallRadius,
        HUDHeight]
    · norm_num [Ball.bounds, Brick.bounds, Brick.screenPos, BallRadius,
        HUDHeight]

/-! ## Claim C2: losing the ball costs one life -/

/-- C2.  On a playing-state tick with no pause intent, at least one life
and at least one brick still active, if the physics phase leaves the ball
lost then the tick decrements `lives` by exactly one and moves to
`gameOver` when the decremented lives reach zero, else to
`waitingToContinue`. -/
theorem playing_tick_ball_lost (inp : Input) (g : Game)
    (hsp : inp.space = false) (hen : inp.enter = false)
    (hlives : 1 ≤ g.lives)
    (hlost : (physicsPhase inp g).ball.isLost)
    (hactive : (physicsPhase inp g).bricks.countP (fun b => b.active) ≠ 0) :
    (updatePlaying inp g).lives = g.lives - 1 ∧
    (updatePlaying inp g).state =
      (if g.lives - 1 = 0 then GameState.gameOver
       else GameState.waitingToContinue) := by
  have hpl : (physicsPhase inp g).lives = g.lives := rfl
  simp only [updatePlaying, hsp, hen, Bool.or_self, Bool.false_eq_true,
    if_false]
  rw [if_pos hlost]
  by_cases hl : g.lives = 1
  · rw [if_pos (show (physicsPhase inp g).lives - 1 ≤ 0 by
      rw [hpl]; omega)]
    dsimp only
    rw [if_neg hactive]
    refine ⟨by dsimp only; rw [hpl], ?_⟩
    dsimp only
    rw [if_pos (show g.lives - 1 = 0 by omega)]
  · rw [if_neg (show ¬ (physicsPhase inp g).lives - 1 ≤ 0 by
      rw [hpl]; omega)]
    dsimp only
    rw [if_neg hactive]
    refine ⟨by dsimp only; rw [hpl], ?_⟩
    dsimp only
    rw [if_neg (show ¬ g.lives - 1 = 0 by omega)]

/-- Witness for C2: the demo game's ball ends the physics phase at
`y = 1004 > 820` with no collision, so the tick yields two remaining lives
and the `waitingToContinue` state. -/
theorem playing_tick_ball_lost_witness :
    (updatePlaying (Input.mk false false false false) demoGame).lives =
      demoGame.lives - 1 ∧
    (updatePlaying (Input.mk false false false false) demoGame).state =
      (if demoGame.lives - 1 = 0 then GameState.gameOver
       else GameState.waitingToContinue) := by
  have hpad : Paddle.update (Paddle.mk 360 0) false false = Paddle.mk 360 0 := by
    norm_num [Paddle.update, clampToScreen, Tick, PaddleWidth, ScreenWidth,
      PaddleAccel, PaddleFriction, PaddleMaxSpeed]
  have hball : Ball.update (Ball.mk 360 1000 0 240 240) =
      Ball.mk 360 1004 0 240 240 := by
    norm_num [Ball.update, Tick]
  have hpc : checkPaddleCollision (Ball.mk 360 1004 0 240 240)
      (Paddle.mk 360 0) 0 = (Ball.mk 360 1004 0 240 240, 0) := by
    norm_num [checkPaddleCollision, Ball.bounds, Paddle.bounds, BallRadius,
      PaddleWidth, PaddleHeight, PaddleY]
  have hbc : checkBrickCollisions (Ball.mk 360 1004 0 240 240)
      [Brick.mk 0 0 1 true 100 40 0 0 0 0] 0 3 =
      (Ball.mk 360 1004 0 240 240, [Brick.mk 0 0 1 true 100 40 0 0 0 0], 0) := by
    simp only [checkBrickCollisions]
    refine brickScan_no_hit _ _ _ _ _ ?_
    intro b hb
    simp only [List.mem_singleton] at hb
    subst hb
    intro hcontra
    refine absurd hcontra.2 ?_
    norm_num [brickOverlap, Ball.bounds, Brick.bounds, Brick.screenPos,
      BallRadius, HUDHeight]
  have hwc : checkWallCollisions (Ball.mk 360 1004 0 240 240) =
      Ball.mk 360 1004 0 240 240 := by
    norm_num [checkWallCollisions, Ball.bounds, BallRadius, GameAreaLeft,
      GameAreaRight, GameAreaTop]
  have hphys : physicsPhase (Input.mk false false false false) demoGame =
      { demoGame with paddle := Paddle.mk 360 0,
                      ball := Ball.mk 360 1004 0 240 240,
                      bricks := [Brick.mk 0 0 1 true 100 40 0 0 0 0],
                      score := 0 } := by
    simp only [physicsPhase, demoGame]
    rw [hpad, hball, hpc]
    dsimp only
    rw [hbc]
    dsimp only
    rw [hwc]
  have hlost0 : (physicsPhase (Input.mk false false false false)
      demoGame).ball.isLost := by
    rw [hphys]
    show (1004 : ℝ) > ScreenWidth + 100
    norm_num [ScreenWidth]
  have hactive0 : (physicsPhase (Input.mk false false false false)
      demoGame).bricks.countP (fun b => b.active) ≠ 0 := by
    rw [hphys]
    decide
  exact playing_tick_ball_lost (Input.mk false false false false) demoGame
    rfl rfl (by norm_num [demoGame]) hlost0 hactive0

/-! ## Claim C8: auto-fit of over-wide brick fields -/

lemma foldl_minx_le_init (l : List LevelBrick) :
    ∀ a : ℤ, l.foldl (fun m lb => if lb.x < m then lb.x else m) a ≤ a := by
  induction l with
  | nil => intro a; exact le_refl a
  | cons b t ih =>
    intro a
    simp only [List.foldl_cons]
    refine le_trans (ih _) ?_
    split_ifs with h
    · exact le_of_lt h
    · exact le_refl a

lemma init_le_foldl_maxx (l : List LevelBrick) :
    ∀ a : ℤ, a ≤ l.foldl (fun m lb => if m < lb.x then lb.x else m) a := by
  induction l with
  | nil => intro a; exact le_refl a
  | cons b t ih =>
    intro a
    simp only [List.foldl_cons]
    refine le_trans ?_ (ih _)
    split_ifs with h
    · exact le_of_lt h
    · exact le_refl a

lemma levelCols_pos (lvl : Level) (h : lvl.bricks ≠ []) : 0 < levelCols lvl := by
  unfold levelCols levelMinX levelMaxX
  cases hb : lvl.bricks with
  | nil => exact absurd hb h
  | cons b t =>
    simp only [hb]
    have h1 := foldl_minx_le_init (b :: t) b.x
    have h2 := init_le_foldl_maxx (b :: t) b.x
    omega

/-- C8 (amended).  For every grid level whose raw brick field is wider than
the gameplay area and for which the auto-fit has room to work
(`cols ≤ available`), the fitted level has a strictly smaller positive
brick width, its field now fits *within* the gameplay width (by up to
`cols - 1` leftover pixels of integer division, not exactly), and the
brick height is the proportionally scaled width, truncated to an
integer. -/
theorem auto_fit_shrinks_and_fits (lvl : Level)
    (hne : lvl.bricks ≠ [])
    (hw : 0 < lvl.brickWidth)
    (hover : GameAreaWidth < levelFieldWidth lvl)
    (havail : levelCols lvl ≤
      GameAreaWidth - (levelCols lvl - 1) * lvl.brickSpacingX) :
    (autoFitLevel lvl).brickWidth < lvl.brickWidth ∧
    1 ≤ (autoFitLevel lvl).brickWidth ∧
    levelFieldWidth (autoFitLevel lvl) ≤ GameAreaWidth ∧
    (autoFitLevel lvl).brickHeight =
      truncQ (((autoFitLevel lvl).brickWidth : ℚ) *
        ((lvl.brickHeight : ℚ) / (lvl.brickWidth : ℚ))) := by
  have hcols := levelCols_pos lvl hne
  have hcur : ¬ (levelCols lvl * lvl.brickWidth +
      (levelCols lvl - 1) * lvl.brickSpacingX ≤ GameAreaWidth) := by
    unfold levelFieldWidth at hover; omega
  have havail2 : ¬ (GameAreaWidth -
      (levelCols lvl - 1) * lvl.brickSpacingX ≤ 0) := by omega
  have hnw : 1 ≤ (GameAreaWidth -
      (levelCols lvl - 1) * lvl.brickSpacingX) / levelCols lvl := by
    rw [Int.le_ediv_iff_mul_le hcols]; omega
  have hrec : autoFitLevel lvl = { lvl with
      brickWidth := (GameAreaWidth -
        (levelCols lvl - 1) * lvl.brickSpacingX) / levelCols lvl
      brickHeight := truncQ
        ((((GameAreaWidth - (levelCols lvl - 1) * lvl.brickSpacingX) /
            levelCols lvl : ℤ) : ℚ) *
          ((lvl.brickHeight : ℚ) / (lvl.brickWidth : ℚ))) } := by
    simp only [autoFitLevel]
    rw [if_neg (not_or.mpr ⟨hne, not_le.2 hw⟩), if_neg (not_le.2 hcols),
      if_neg hcur, if_neg havail2, if_neg (by omega)]
  have hdiv := Int.ediv_add_emod
    (GameAreaWidth - (levelCols lvl - 1) * lvl.brickSpacingX) (levelCols lvl)
  have hmod := Int.emod_nonneg
    (GameAreaWidth - (levelCols lvl - 1) * lvl.brickSpacingX)
    (ne_of_gt hcols)
  have hb1 : levelCols lvl * ((GameAreaWidth -
      (levelCols lvl - 1) * lvl.brickSpacingX) / levelCols lvl) ≤
      GameAreaWidth - (levelCols lvl - 1) * lvl.brickSpacingX := by
    linarith
  have hb2 : GameAreaWidth - (levelCols lvl - 1) * lvl.brickSpacingX <
      levelCols lvl * lvl.brickWidth := by
    unfold levelFieldWidth at hover; linarith
  rw [hrec]
  have hcolseq : levelCols { lvl with
      brickWidth := (GameAreaWidth -
        (levelCols lvl - 1) * lvl.brickSpacingX) / levelCols lvl
      brickHeight := truncQ
        ((((GameAreaWidth - (levelCols lvl - 1) * lvl.brickSpacingX) /
            levelCols lvl : ℤ) : ℚ) *
          ((lvl.brickHeight : ℚ) / (lvl.brickWidth : ℚ))) } = levelCols lvl := by
    unfold levelCols levelMinX levelMaxX
    rfl
  refine ⟨?_, hnw, ?_, rfl⟩
  · show (GameAreaWidth -
        (levelCols lvl - 1) * lvl.brickSpacingX) / levelCols lvl <
      lvl.brickWidth
    have h3 : levelCols lvl * ((GameAreaWidth -
        (levelCols lvl - 1) * lvl.brickSpacingX) / levelCols lvl) <
        levelCols lvl * lvl.brickWidth := lt_of_le_of_lt hb1 hb2
    exact lt_of_mul_lt_mul_left h3 hcols.le
  · unfold levelFieldWidth
    rw [hcolseq]
    show levelCols lvl * ((GameAreaWidth -
        (levelCols lvl - 1) * lvl.brickSpacingX) / levelCols lvl) +
      (levelCols lvl - 1) * lvl.brickSpacingX ≤ GameAreaWidth
    linarith

/-- Counterexample to C8 as stated: the three-column level with 300-px
bricks overflows the 700-px gameplay width and is accepted after
auto-fitting to 233-px bricks, but the fitted field spans 699 px — it fits
*within* the gameplay width, not "exactly" (the integer division
`700 / 3 = 233` drops one pixel). -/
theorem auto_fit_not_exact_counterexample :
    GameAreaWidth < levelFieldWidth demoOverflowLevel ∧
    (loadLevel demoOverflowLevel).toOption.map Level.brickWidth = some 233 ∧
    levelFieldWidth (autoFitLevel demoOverflowLevel) = 699 ∧
    levelFieldWidth (autoFitLevel demoOverflowLevel) ≠ GameAreaWidth := by
  refine ⟨by decide, ?_, by decide, by decide⟩
  have hval : validateLevel (autoFitLevel demoOverflowLevel) =
      Except.ok () := by
    norm_num +decide [validateLevel, autoFitLevel, demoOverflowLevel,
      levelCols, levelMinX, levelMaxX, levelMinY, levelMaxY, levelFieldWidth,
      truncQ, checkBricks, GameAreaWidth, GameAreaLeft, GameAreaRight,
      GameAreaTop, GameAreaBottom, BrickCols, BrickRows]
  simp only [loadLevel, hval, Except.toOption, Option.map]
  decide

/-- Witness for the amended C8 at the concrete overflowing level. -/
theorem auto_fit_shrinks_and_fits_witness :
    (autoFitLevel demoOverflowLevel).brickWidth <
      demoOverflowLevel.brickWidth ∧
    1 ≤ (autoFitLevel demoOverflowLevel).brickWidth ∧
    levelFieldWidth (autoFitLevel demoOverflowLevel) ≤ GameAreaWidth ∧
    (autoFitLevel demoOverflowLevel).brickHeight =
      truncQ (((autoFitLevel demoOverflowLevel).brickWidth : ℚ) *
        ((demoOverflowLevel.brickHeight : ℚ) /
          (demoOverflowLevel.brickWidth : ℚ))) :=
  auto_fit_shrinks_and_fits demoOverflowLevel (by decide) (by decide)
    (by decide) (by decide)

/-! ## Claim C9: the paddle clamp -/

lemma clampToScreen_bounds (x vx : ℝ) :
    PaddleWidth / 2 ≤ (clampToScreen x vx).x ∧
    (clampToScreen x vx).x ≤ ScreenWidth - PaddleWidth / 2 := by
  unfold clampToScreen
  split_ifs with h1 h2 <;> dsimp only <;> constructor <;>
    first
      | linarith
      | norm_num [PaddleWidth, ScreenWidth]

/-- C9 (amended).  After every paddle update the center stays within half a
paddle width of the *screen* edges, `[PaddleWidth/2, ScreenWidth -
PaddleWidth/2] = [60, 660]`, whatever the inputs. -/
theorem paddle_update_stays_on_screen (p : Paddle) (left right : Bool) :
    PaddleWidth / 2 ≤ (p.update left right).x ∧
    (p.update left right).x ≤ ScreenWidth - PaddleWidth / 2 :=
  clampToScreen_bounds _ _

/-- Counterexample to C9 as stated: starting at the far left with no input,
one update clamps the paddle center to 60 — half a paddle width from the
*screen* edge — which is strictly inside the game-area-based lower bound
`GameAreaLeft + PaddleWidth/2 = 70` the claim asserts. -/
theorem paddle_clamp_leaves_game_area :
    ((Paddle.mk 0 0).update false false).x = PaddleWidth / 2 ∧
    ((Paddle.mk 0 0).update false false).x < (GameAreaLeft : ℝ) + PaddleWidth / 2 := by
  constructor <;>
    norm_num [Paddle.update, clampToScreen, PaddleWidth, ScreenWidth,
      GameAreaLeft, PaddleAccel, PaddleFriction, PaddleMaxSpeed, Tick]

/-! ## Claim C10: the lost-ball threshold -/

/-- C10.  `IsLost` holds exactly when the ball's center `y` exceeds 820
pixels — `ScreenWidth + 100`, built from the screen-*width* constant — and
it is insensitive to the ball's velocity and stored speed. -/
theorem ball_lost_iff_y_beyond_820 (b : Ball) :
    (b.isLost ↔ 820 < b.y) ∧
    (∀ vx vy sp : ℝ, ((Ball.mk b.x b.y vx vy sp).isLost ↔ b.isLost)) := by
  constructor
  · unfold Ball.isLost ScreenWidth
    norm_num
  · intro vx vy sp
    exact Iff.rfl

/-! ## Claim C4: the score floor on level load -/

/-- C4.  Whenever `Game.loadLevel` succeeds for level `n`, the resulting
score is exactly `max (previous score) (n * 1000)`: at least the `n * 1000`
baseline, and never below the pre-load score. -/
theorem load_level_score_floor (lookup : ℤ → Option Level) (g : Game)
    (n : ℤ) (g2 : Game) (h : gameLoadLevel lookup g n = some g2) :
    g2.score = max g.score (n * 1000) ∧
    n * 1000 ≤ g2.score ∧ g.score ≤ g2.score := by
  unfold gameLoadLevel at h
  cases hl : lookup n with
  | none => rw [hl] at h; exact absurd h (by simp)
  | some lvl =>
    rw [hl] at h
    simp only [Option.some.injEq] at h
    subst h
    simp only
    refine ⟨?_, ?_, ?_⟩ <;> split_ifs with hc <;> omega

/-- Witness for C4: loading level 2 over a zero score yields exactly the
2000-point baseline. -/
theorem load_level_score_floor_witness :
    demoGameLoaded.score = max demoGame.score (2 * 1000) ∧
    2 * 1000 ≤ demoGameLoaded.score ∧
    demoGame.score ≤ demoGameLoaded.score := by
  have h : gameLoadLevel (fun _ => some demoLevel) demoGame 2 =
      some demoGameLoaded := by
    simp only [gameLoadLevel, demoGameLoaded, demoGame]
    norm_num
  exact load_level_score_floor (fun _ => some demoLevel) demoGame 2
    demoGameLoaded h

end

end Brix
